import Mathlib

/-!
Verification of the fake-news-detector verdict synthesis core.

Shallow embedding of:
- `src/server/app/services/synthesis_service.py` (`SynthesisService.synthesize`)
- `src/server/app/services/fact_check_service.py` (`FactCheckService.check_claims`)
- `src/server/app/routers/analyze.py` (`analyze_text`)

Python floats are modelled as exact rationals (all numeric literals in the
source are short decimals); Python strings as Lean `String`; Python dicts
returned by the services as Lean structures with one field per key.
-/

/-- Test that `pat` is an initial segment of `s`, character by character;
the building block of the Python substring operator. -/
def leadsWith : List Char → List Char → Bool
  | [], _ => true
  | _ :: _, [] => false
  | p :: ps, c :: cs => p == c && leadsWith ps cs

/-- The Python substring test `pat in s` over char lists. -/
def hasSub (pat : List Char) : List Char → Bool
  | [] => leadsWith pat []
  | c :: cs => leadsWith pat (c :: cs) || hasSub pat cs

/-- The Python `str.lower()` operation (the rating vocabulary is ASCII). -/
def lowerChars (s : String) : List Char := s.toList.map Char.toLower

/-- The per-item test `any(r in rating.lower() for r in pats)` from the tally code. -/
def ratingMatches (pats : List String) (rating : String) : Bool :=
  pats.any (fun p => hasSub p.toList (lowerChars rating))

/-- The `false_ratings` list, synthesis_service.py line 57. -/
def falseRatings : List String := ["false", "pants on fire", "mostly false"]

/-- The `true_ratings` list, synthesis_service.py line 58. -/
def trueRatings : List String := ["true", "mostly true", "correct"]

/-- The Python two-argument `min`: the first argument when it is ≤ the second,
else the second. -/
def pymin (a b : ℚ) : ℚ := if a ≤ b then a else b

/-- One fact-check dict as built by `FactCheckService.check_claims`
(keys `claim`, `claimant`, `rating`, `source`, `url`; `url` may be `None`). -/
structure FactCheck where
  claim : String
  claimant : String
  rating : String
  source : String
  url : Option String
  deriving Repr, DecidableEq

/-- The dict returned by `SynthesisService.synthesize`
(keys `verdict`, `confidence`, `reasoning`). -/
structure Verdict where
  verdict : String
  confidence : ℚ
  reasoning : String
  deriving Repr, DecidableEq

/-- The count `false_count`, synthesis_service.py lines 60-63: the number of items whose
lower-cased rating contains some false-denoting substring. -/
def falseCount (fact_checks : List FactCheck) : Nat :=
  fact_checks.countP (fun fc => ratingMatches falseRatings fc.rating)

/-- The count `true_count`, synthesis_service.py lines 65-68. -/
def trueCount (fact_checks : List FactCheck) : Nat :=
  fact_checks.countP (fun fc => ratingMatches trueRatings fc.rating)

/-- The no-evidence tail of `synthesize` (lines 120-152): the code reaches it
when `fact_checks` is empty, and the four guarded returns inside the
`if fact_checks:` block fall through (which trichotomy makes impossible).
The source interpolates `ml_confidence` formatted as a percentage; we keep
the string of the raw rational. -/
def mlRules (ml_prediction : String) (ml_confidence : ℚ) : Verdict :=
  if ml_confidence > 0.85 then
    { verdict := ml_prediction
      confidence := ml_confidence
      reasoning := "No fact-checks found. Our AI model predicts this is " ++
        ml_prediction ++ " with high confidence (" ++ toString ml_confidence ++ ")." }
  else if ml_confidence > 0.65 then
    { verdict := ml_prediction
      confidence := ml_confidence
      reasoning := "No fact-checks found. Our AI model suggests this is likely " ++
        ml_prediction ++ " (" ++ toString ml_confidence ++ " confidence)." }
  else
    { verdict := "UNCERTAIN"
      confidence := ml_confidence
      reasoning := "No definitive fact-checks found, and our AI model has moderate confidence (" ++
        toString ml_confidence ++ "). This claim requires more context or investigation." }

/-- The branch cascade of `SynthesisService.synthesize` with the tally and the
list-nonemptiness test abstracted into arguments (`false_count`, `true_count`,
`has_evidence`); `synthesize` below instantiates them exactly as the source
computes them.  Mirrors lines 55-152 top to bottom, first match wins. -/
def synthesizeCore (ml_prediction : String) (ml_confidence : ℚ)
    (false_count true_count : Nat) (has_evidence : Bool) : Verdict :=
  if has_evidence then
    if false_count > true_count ∧ false_count > 0 then
      { verdict := "FAKE"
        confidence := pymin 0.95 (0.7 + (false_count : ℚ) * 0.1)
        reasoning := "Professional fact-checkers found this claim to be false. " ++
          toString false_count ++ " fact-checker(s) rated it as false or misleading." }
    else if true_count > false_count ∧ true_count > 0 then
      { verdict := "REAL"
        confidence := pymin 0.95 (0.7 + (true_count : ℚ) * 0.1)
        reasoning := "Professional fact-checkers verified this claim as true. " ++
          toString true_count ++ " fact-checker(s) confirmed its accuracy." }
    else if false_count = true_count ∧ ml_confidence > 0.8 then
      { verdict := ml_prediction
        confidence := ml_confidence * 0.85
        reasoning := "Fact-checkers provided mixed signals. Our AI model predicts this is " ++
          ml_prediction ++ " with " ++ toString ml_confidence ++ " confidence." }
    else if false_count = true_count then
      { verdict := "UNCERTAIN"
        confidence := 0.5
        reasoning := "Fact-checkers provided conflicting assessments, and our AI model is not highly confident. More investigation needed." }
    else
      mlRules ml_prediction ml_confidence
  else
    mlRules ml_prediction ml_confidence

/-- The method `SynthesisService.synthesize` (synthesis_service.py lines 21-152):
the Python truthiness test `if fact_checks:` is list non-emptiness, and the
two counts are computed from the list as at lines 60-68. -/
def synthesize (ml_prediction : String) (ml_confidence : ℚ)
    (fact_checks : List FactCheck) : Verdict :=
  synthesizeCore ml_prediction ml_confidence
    (falseCount fact_checks) (trueCount fact_checks) (!fact_checks.isEmpty)

/-- One entry of the `claimReview` array of one claim in the API response;
`get` with a default is modelled by `Option` plus `getD`. -/
structure ApiReview where
  textualRating : Option String
  publisherName : Option String
  url : Option String
  deriving Repr, DecidableEq

/-- One entry of the `claims` array in the Fact Check API response. -/
structure ApiClaim where
  text : Option String
  claimant : Option String
  claimReview : List ApiReview
  deriving Repr, DecidableEq

/-- Outcome of the HTTP call made by `check_claims`: a response with a status
code and an optional `claims` array, a timeout (`httpx.TimeoutException`), or
any other raised exception. -/
inductive RetrievalOutcome where
  | response (status : Nat) (claims : Option (List ApiClaim))
  | timeout
  | failure (msg : String)
  deriving Repr, DecidableEq

/-- The parsing loop of `check_claims` (fact_check_service.py lines 75-86):
first 5 claims, one dict per claim review, absent fields defaulted. -/
def parseFactChecks (claims : List ApiClaim) : List FactCheck :=
  (claims.take 5).flatMap (fun claim =>
    claim.claimReview.map (fun review =>
      { claim := claim.text.getD ""
        claimant := claim.claimant.getD "Unknown"
        rating := review.textualRating.getD "Unknown"
        source := review.publisherName.getD "Unknown"
        url := review.url }))

/-- The method `FactCheckService.check_claims` (fact_check_service.py lines 27-96) with
the network effect abstracted into a `RetrievalOutcome` argument.  `api_key`
is `os.getenv("GOOGLE_FACT_CHECK_API_KEY", "")`, so an unset variable is the
empty string; the Python test `not self.api_key` on a string is the emptiness test.
The early return at line 46 never consults the outcome, and every failure
branch (non-200 status, timeout, any exception) returns the empty list. -/
def check_claims (api_key : String) (text : String)
    (outcome : RetrievalOutcome) : List FactCheck :=
  if api_key = "" ∨ api_key = "your_api_key_here" then []
  else
    match outcome with
    | .response status claims =>
        if status ≠ 200 then []
        else
          match claims with
          | none => []
          | some cs => parseFactChecks cs
    | .timeout => []
    | .failure _ => []

/-- The dict returned by `MLService.predict` (prediction label and softmax
confidence; the `probabilities` sub-dict is not consumed by the orchestrator
and is omitted). -/
structure MLResult where
  prediction : String
  confidence : ℚ
  deriving Repr, DecidableEq

/-- The response record assembled by `analyze_text` (analyze.py lines 144-152).
`processing_time_ms` is wall-clock time, outside the shallow embedding. -/
structure AnalysisResult where
  verdict : String
  confidence : ℚ
  ml_prediction : String
  ml_confidence : ℚ
  fact_checks : List FactCheck
  reasoning : String
  deriving Repr, DecidableEq

/-- The endpoint `analyze_text` (analyze.py lines 62-159) with the two collaborator calls
abstracted: `ml_outcome` is the result of `ml_service.predict` (which re-raises
on any inference failure, ml_service.py lines 130-132), and `retrieval` the
HTTP outcome consumed by `check_claims`.  A raised exception is caught at line
154 and surfaces as the single HTTP 500 error `"Analysis failed: ..."`; no
partial result is built.  `check_claims` itself never raises. -/
def analyze (ml_outcome : Except String MLResult) (api_key : String)
    (text : String) (retrieval : RetrievalOutcome) :
    Except String AnalysisResult :=
  match ml_outcome with
  | .error e => .error ("Analysis failed: " ++ e)
  | .ok ml =>
      let fact_checks := check_claims api_key text retrieval
      let final := synthesize ml.prediction ml.confidence fact_checks
      .ok { verdict := final.verdict
            confidence := final.confidence
            ml_prediction := ml.prediction
            ml_confidence := ml.confidence
            fact_checks := fact_checks
            reasoning := final.reasoning }

/-- The guard of rule `i` of the seven-rule cascade of the spec (§4.3), as a
predicate on the synthesis inputs.  Rules 1-4 require evidence, rules 5-7
its absence; the numbering follows the spec, shifted down by one. -/
def ruleGuard (i : Fin 7) (c : ℚ) (f t : Nat) (he : Bool) : Prop :=
  match i with
  | 0 => he = true ∧ f > t ∧ f > 0
  | 1 => he = true ∧ t > f ∧ t > 0
  | 2 => he = true ∧ f = t ∧ c > 0.8
  | 3 => he = true ∧ f = t ∧ c ≤ 0.8
  | 4 => he = false ∧ c > 0.85
  | 5 => he = false ∧ 0.65 < c ∧ c ≤ 0.85
  | 6 => he = false ∧ c ≤ 0.65

/-- The verdict dict that rule `i` of the cascade returns (the literal records
of synthesis_service.py lines 74-152). -/
def ruleOutput (i : Fin 7) (p : String) (c : ℚ) (f t : Nat) : Verdict :=
  match i with
  | 0 =>
      { verdict := "FAKE"
        confidence := pymin 0.95 (0.7 + (f : ℚ) * 0.1)
        reasoning := "Professional fact-checkers found this claim to be false. " ++
          toString f ++ " fact-checker(s) rated it as false or misleading." }
  | 1 =>
      { verdict := "REAL"
        confidence := pymin 0.95 (0.7 + (t : ℚ) * 0.1)
        reasoning := "Professional fact-checkers verified this claim as true. " ++
          toString t ++ " fact-checker(s) confirmed its accuracy." }
  | 2 =>
      { verdict := p
        confidence := c * 0.85
        reasoning := "Fact-checkers provided mixed signals. Our AI model predicts this is " ++
          p ++ " with " ++ toString c ++ " confidence." }
  | 3 =>
      { verdict := "UNCERTAIN"
        confidence := 0.5
        reasoning := "Fact-checkers provided conflicting assessments, and our AI model is not highly confident. More investigation needed." }
  | 4 =>
      { verdict := p
        confidence := c
        reasoning := "No fact-checks found. Our AI model predicts this is " ++
          p ++ " with high confidence (" ++ toString c ++ ")." }
  | 5 =>
      { verdict := p
        confidence := c
        reasoning := "No fact-checks found. Our AI model suggests this is likely " ++
          p ++ " (" ++ toString c ++ " confidence)." }
  | 6 =>
      { verdict := "UNCERTAIN"
        confidence := c
        reasoning := "No definitive fact-checks found, and our AI model has moderate confidence (" ++
          toString c ++ "). This claim requires more context or investigation." }

/-- The retrieval outcomes that `check_claims` treats as failures: a non-200
response, a timeout, or any other exception. -/
def retrievalFailed : RetrievalOutcome → Prop
  | .response status _ => status ≠ 200
  | .timeout => True
  | .failure _ => True

/-- An evidence item whose rating contains a substring from both the falsity
set ("false") and the truth set ("true"). -/
def fcBoth : FactCheck :=
  { claim := "some claim", claimant := "Unknown"
    rating := "Half true but mostly false", source := "SomeChecker", url := none }

/-- An evidence item rated "False" (Scenario A of the spec). -/
def fcFalse : FactCheck :=
  { claim := "some claim", claimant := "Unknown"
    rating := "False", source := "SomeChecker", url := none }

/-- An evidence item whose rating matches neither substring set. -/
def fcUnproven : FactCheck :=
  { claim := "some claim", claimant := "Unknown"
    rating := "Unproven", source := "SomeChecker", url := none }

/-- A concrete ML collaborator result used to instantiate the theorems. -/
def mlSample : MLResult := { prediction := "FAKE", confidence := 0.9 }

/-- A successful API response carrying one parsable claim review; used to show
that a missing API key short-circuits before any response is consulted. -/
def richOutcome : RetrievalOutcome :=
  .response 200 (some
    [{ text := some "the claim", claimant := some "Someone"
       claimReview := [{ textualRating := some "False"
                         publisherName := some "Checker"
                         url := some "https://example.org/fc" }] }])

theorem pymin_eq_min (a b : ℚ) : pymin a b = min a b := (min_def a b).symm

theorem synthesizeCore_noEvidence (p : String) (c : ℚ) (f t : Nat) :
    synthesizeCore p c f t false = mlRules p c := rfl

theorem synthesize_nil (p : String) (c : ℚ) : synthesize p c [] = mlRules p c := rfl

theorem mlRules_of_high {c : ℚ} (p : String) (h : c > 0.85) :
    mlRules p c = ruleOutput 4 p c 0 0 := by
  simp [mlRules, ruleOutput, h]

theorem mlRules_of_mid {c : ℚ} (p : String) (h1 : ¬ c > 0.85) (h2 : c > 0.65) :
    mlRules p c = ruleOutput 5 p c 0 0 := by
  simp [mlRules, ruleOutput, h1, h2]

theorem mlRules_of_low {c : ℚ} (p : String) (h : ¬ c > 0.65) :
    mlRules p c = ruleOutput 6 p c 0 0 := by
  have h1 : ¬ c > 0.85 := fun hgt => h (lt_trans (by norm_num) hgt)
  simp [mlRules, ruleOutput, h1, h]

theorem synthesizeCore_rule1 (p : String) (c : ℚ) {f t : Nat} (h : t < f) :
    synthesizeCore p c f t true = ruleOutput 0 p c f t := by
  have hf : 0 < f := Nat.lt_of_le_of_lt (Nat.zero_le t) h
  simp [synthesizeCore, ruleOutput, h, hf]

theorem synthesizeCore_rule2 (p : String) (c : ℚ) {f t : Nat} (h : f < t) :
    synthesizeCore p c f t true = ruleOutput 1 p c f t := by
  have h1 : ¬ t < f := lt_asymm h
  have ht : 0 < t := Nat.lt_of_le_of_lt (Nat.zero_le f) h
  have hne : f ≠ t := Nat.ne_of_lt h
  simp [synthesizeCore, ruleOutput, h, h1, ht, hne]

theorem synthesizeCore_rule3 (p : String) {c : ℚ} {f t : Nat} (hft : f = t)
    (hc : c > 0.8) : synthesizeCore p c f t true = ruleOutput 2 p c f t := by
  subst hft
  simp [synthesizeCore, ruleOutput, hc]

theorem synthesizeCore_rule4 (p : String) {c : ℚ} {f t : Nat} (hft : f = t)
    (hc : ¬ c > 0.8) : synthesizeCore p c f t true = ruleOutput 3 p c f t := by
  subst hft
  simp [synthesizeCore, ruleOutput, hc]

/-- C1: the code computes `false_count` and `true_count` by two independent
substring scans, so an item whose rating matches both substring sets
increments BOTH counts; `trueCount` is 1, not 0, on such a singleton list,
refuting the claimed FALSE-precedence bucketing. -/
theorem c1_counterexample :
    ratingMatches falseRatings fcBoth.rating = true ∧
    ratingMatches trueRatings fcBoth.rating = true ∧
    falseCount [fcBoth] = 1 ∧ trueCount [fcBoth] = 1 := by decide

/-- C1 (amended): an evidence item whose rating contains (case-insensitively)
both a falsity substring and a truth substring increments `false_count` AND
`true_count`: the two counts are computed independently and there is no
per-item FALSE precedence. -/
theorem c1_both_sets_increment_both_counts (fc : FactCheck) (L : List FactCheck)
    (hf : ratingMatches falseRatings fc.rating = true)
    (ht : ratingMatches trueRatings fc.rating = true) :
    falseCount (fc :: L) = falseCount L + 1 ∧
    trueCount (fc :: L) = trueCount L + 1 := by
  constructor <;> simp [falseCount, trueCount, List.countP_cons, hf, ht]

theorem c1_both_sets_increment_both_counts_witness :
    falseCount [fcBoth] = falseCount [] + 1 ∧
    trueCount [fcBoth] = trueCount [] + 1 :=
  c1_both_sets_increment_both_counts fcBoth [] (by decide) (by decide)

/-- C2: with one item matching both substring sets, `false_count + true_count`
is 2 on a one-element evidence list, exceeding its length and refuting the
claimed bound `false_count + true_count ≤ len(evidence)`. -/
theorem c2_counterexample :
    falseCount [fcBoth] + trueCount [fcBoth] = 2 ∧
    ([fcBoth] : List FactCheck).length = 1 := by decide

/-- C2 (amended): each of the two counts is individually at most the length of
the evidence list, hence `false_count + true_count ≤ 2 × len(evidence)`; an
item matching both substring sets contributes to both counts, so the sum can
exceed the length itself. -/
theorem c2_tally_bounds (L : List FactCheck) :
    falseCount L ≤ L.length ∧ trueCount L ≤ L.length ∧
    falseCount L + trueCount L ≤ 2 * L.length := by
  have h1 : falseCount L ≤ L.length := List.countP_le_length _
  have h2 : trueCount L ≤ L.length := List.countP_le_length _
  exact ⟨h1, h2, by omega⟩

/-- C3: on a non-empty evidence list in which no item matches either substring
set, both counts are zero and `synthesize` takes the tie-break rules 3/4
(mixed-signal model fallback for `ml_confidence > 0.8`, UNCERTAIN at 0.5
otherwise), never the no-evidence rules 5-7. -/
theorem c3_all_undetermined (p : String) (c : ℚ) (L : List FactCheck)
    (hne : L ≠ [])
    (hU : ∀ fc ∈ L, ratingMatches falseRatings fc.rating = false ∧
                    ratingMatches trueRatings fc.rating = false) :
    falseCount L = 0 ∧ trueCount L = 0 ∧
    (c > 0.8 → synthesize p c L = ruleOutput 2 p c 0 0) ∧
    (c ≤ 0.8 → synthesize p c L = ruleOutput 3 p c 0 0) := by
  have hf : falseCount L = 0 :=
    List.countP_eq_zero.mpr (fun fc h => by simp [(hU fc h).1])
  have ht : trueCount L = 0 :=
    List.countP_eq_zero.mpr (fun fc h => by simp [(hU fc h).2])
  have hev : (!L.isEmpty) = true := by
    cases L with
    | nil => exact absurd rfl hne
    | cons a l => rfl
  refine ⟨hf, ht, ?_, ?_⟩
  · intro hc
    unfold synthesize
    rw [hf, ht, hev]
    exact synthesizeCore_rule3 p rfl hc
  · intro hc
    unfold synthesize
    rw [hf, ht, hev]
    exact synthesizeCore_rule4 p rfl (not_lt.mpr hc)

theorem c3_all_undetermined_witness :
    falseCount [fcUnproven] = 0 ∧ trueCount [fcUnproven] = 0 ∧
    synthesize "FAKE" 0.9 [fcUnproven] = ruleOutput 2 "FAKE" 0.9 0 0 := by
  have h := c3_all_undetermined "FAKE" 0.9 [fcUnproven] (by decide) (by decide)
  exact ⟨h.1, h.2.1, h.2.2.1 (by norm_num)⟩

/-- C4: whenever the tally has a strict false majority, `synthesize` returns
verdict FAKE with confidence `min 0.95 (0.7 + 0.1 × false_count)` and the
rule-1 reasoning. -/
theorem c4_false_majority (p : String) (c : ℚ) (L : List FactCheck)
    (h : trueCount L < falseCount L) :
    synthesize p c L =
      { verdict := "FAKE"
        confidence := min 0.95 (0.7 + (falseCount L : ℚ) * 0.1)
        reasoning := "Professional fact-checkers found this claim to be false. " ++
          toString (falseCount L) ++ " fact-checker(s) rated it as false or misleading." } := by
  have hf : 0 < falseCount L := Nat.lt_of_le_of_lt (Nat.zero_le _) h
  have hev : (!L.isEmpty) = true := by
    cases L with
    | nil => simp [falseCount] at hf
    | cons a l => rfl
  unfold synthesize
  rw [hev, synthesizeCore_rule1 p c h]
  simp [ruleOutput, pymin_eq_min]

/-- Scenario A of the spec, obtained from the rule-1 theorem: one "False"
rating and ml = (FAKE, 0.9) give verdict FAKE at confidence 0.80. -/
theorem c4_false_majority_witness :
    synthesize "FAKE" 0.9 [fcFalse] =
      { verdict := "FAKE"
        confidence := 0.8
        reasoning := "Professional fact-checkers found this claim to be false. " ++
          "1 fact-checker(s) rated it as false or misleading." } := by
  have h := c4_false_majority "FAKE" 0.9 [fcFalse] (by decide)
  rw [h]
  have h1 : falseCount [fcFalse] = 1 := by decide
  rw [h1]
  refine congrArg₂ (fun conf r => Verdict.mk "FAKE" conf r) ?_ rfl
  rw [min_def]
  norm_num

/-- C5: with an empty evidence list the verdict is the ML label at the ML
confidence whenever `ml_confidence > 0.65` (rule 5 above 0.85, rule 6 in
(0.65, 0.85]), and UNCERTAIN at the ML confidence when `ml_confidence ≤ 0.65`
(rule 7). -/
theorem c5_ml_only (p : String) (c : ℚ) :
    (c > 0.85 → synthesize p c [] = ruleOutput 4 p c 0 0) ∧
    (0.65 < c ∧ c ≤ 0.85 → synthesize p c [] = ruleOutput 5 p c 0 0) ∧
    (c ≤ 0.65 → synthesize p c [] = ruleOutput 6 p c 0 0) := by
  rw [synthesize_nil]
  refine ⟨fun h => mlRules_of_high p h, fun h => ?_, fun h => ?_⟩
  · exact mlRules_of_mid p (not_lt.mpr h.2) h.1
  · exact mlRules_of_low p (not_lt.mpr h)

theorem c5_ml_only_witness :
    synthesize "FAKE" 0.9 [] = ruleOutput 4 "FAKE" 0.9 0 0 :=
  (c5_ml_only "FAKE" 0.9).1 (by norm_num)

/-- C6: for every ML label, confidence in [0,1], tally pair and evidence flag,
exactly one rule of the seven-rule cascade applies, and the synthesis engine
returns precisely the verdict dict of that rule (totality: one defined result for
every input, no uncovered combination). -/
theorem c6_totality (p : String) (c : ℚ) (f t : Nat) (he : Bool)
    (h0 : 0 ≤ c) (h1 : c ≤ 1) :
    (∃! i : Fin 7, ruleGuard i c f t he) ∧
    (∀ i : Fin 7, ruleGuard i c f t he →
      synthesizeCore p c f t he = ruleOutput i p c f t) := by
  constructor
  · cases he with
    | false =>
      rcases lt_or_le 0.85 c with hc85 | hc85
      · refine ⟨4, ⟨rfl, hc85⟩, ?_⟩
        intro j hj
        fin_cases j <;> simp [ruleGuard] at hj ⊢ <;> first | rfl | linarith
      · rcases lt_or_le 0.65 c with hc65 | hc65
        · refine ⟨5, ⟨rfl, hc65, hc85⟩, ?_⟩
          intro j hj
          fin_cases j <;> simp [ruleGuard] at hj ⊢ <;> first | rfl | linarith
        · refine ⟨6, ⟨rfl, hc65⟩, ?_⟩
          intro j hj
          fin_cases j <;> simp [ruleGuard] at hj ⊢ <;> first | rfl | linarith
    | true =>
      rcases Nat.lt_trichotomy t f with hft | hft | hft
      · refine ⟨0, ⟨rfl, hft, Nat.lt_of_le_of_lt (Nat.zero_le _) hft⟩, ?_⟩
        intro j hj
        fin_cases j <;> simp [ruleGuard] at hj ⊢ <;>
          first | rfl | omega | linarith
      · rcases lt_or_le 0.8 c with hc8 | hc8
        · refine ⟨2, ⟨rfl, hft.symm, hc8⟩, ?_⟩
          intro j hj
          fin_cases j <;> simp [ruleGuard] at hj ⊢ <;>
            first | rfl | omega | linarith
        · refine ⟨3, ⟨rfl, hft.symm, hc8⟩, ?_⟩
          intro j hj
          fin_cases j <;> simp [ruleGuard] at hj ⊢ <;>
            first | rfl | omega | linarith
      · refine ⟨1, ⟨rfl, hft, Nat.lt_of_le_of_lt (Nat.zero_le _) hft⟩, ?_⟩
        intro j hj
        fin_cases j <;> simp [ruleGuard] at hj ⊢ <;>
          first | rfl | omega | linarith
  · intro i hi
    fin_cases i
    · obtain ⟨hhe, hft, hf0⟩ := hi
      subst hhe
      exact synthesizeCore_rule1 p c hft
    · obtain ⟨hhe, hft, ht0⟩ := hi
      subst hhe
      exact synthesizeCore_rule2 p c hft
    · obtain ⟨hhe, hft, hc⟩ := hi
      subst hhe
      exact synthesizeCore_rule3 p hft hc
    · obtain ⟨hhe, hft, hc⟩ := hi
      subst hhe
      exact synthesizeCore_rule4 p hft (not_lt.mpr hc)
    · obtain ⟨hhe, hc⟩ := hi
      subst hhe
      rw [synthesizeCore_noEvidence]
      exact mlRules_of_high p hc
    · obtain ⟨hhe, hlo, hhi⟩ := hi
      subst hhe
      rw [synthesizeCore_noEvidence]
      exact mlRules_of_mid p (not_lt.mpr hhi) hlo
    · obtain ⟨hhe, hc⟩ := hi
      subst hhe
      rw [synthesizeCore_noEvidence]
      exact mlRules_of_low p (not_lt.mpr hc)

theorem c6_totality_witness :
    synthesizeCore "FAKE" 0.9 1 0 true = ruleOutput 0 "FAKE" 0.9 1 0 :=
  (c6_totality "FAKE" 0.9 1 0 true (by norm_num) (by norm_num)).2 0
    ⟨rfl, Nat.zero_lt_one, Nat.zero_lt_one⟩

theorem mlRules_confidence (p : String) (c : ℚ) : (mlRules p c).confidence = c := by
  unfold mlRules
  split_ifs <;> rfl

theorem pymin_conf_bounds (n : Nat) :
    0 ≤ pymin 0.95 (0.7 + (n : ℚ) * 0.1) ∧
    pymin 0.95 (0.7 + (n : ℚ) * 0.1) ≤ 0.95 := by
  rw [pymin_eq_min]
  constructor
  · refine le_min (by norm_num) ?_
    positivity
  · exact min_le_left _ _

theorem synthesizeCore_conf_mem (p : String) (c : ℚ) (f t : Nat) (he : Bool)
    (h0 : 0 ≤ c) (h1 : c ≤ 1) :
    0 ≤ (synthesizeCore p c f t he).confidence ∧
    (synthesizeCore p c f t he).confidence ≤ 1 := by
  cases he with
  | false =>
    rw [synthesizeCore_noEvidence, mlRules_confidence]
    exact ⟨h0, h1⟩
  | true =>
    rcases Nat.lt_trichotomy t f with hft | hft | hft
    · rw [synthesizeCore_rule1 p c hft]
      have h := pymin_conf_bounds f
      exact ⟨h.1, le_trans h.2 (by norm_num)⟩
    · rcases lt_or_le 0.8 c with hc8 | hc8
      · rw [synthesizeCore_rule3 p hft.symm hc8]
        constructor
        · exact mul_nonneg h0 (by norm_num)
        · show c * 0.85 ≤ 1
          nlinarith
      · rw [synthesizeCore_rule4 p hft.symm (not_lt.mpr hc8)]
        show (0:ℚ) ≤ 0.5 ∧ (0.5:ℚ) ≤ 1
        norm_num
    · rw [synthesizeCore_rule2 p c hft]
      have h := pymin_conf_bounds t
      exact ⟨h.1, le_trans h.2 (by norm_num)⟩

theorem synthesizeCore_conf_le95 (p : String) (c : ℚ) {f t : Nat}
    (hne : f ≠ t) : (synthesizeCore p c f t true).confidence ≤ 0.95 := by
  rcases Nat.lt_trichotomy t f with hft | hft | hft
  · rw [synthesizeCore_rule1 p c hft]
    exact (pymin_conf_bounds f).2
  · exact absurd hft.symm hne
  · rw [synthesizeCore_rule2 p c hft]
    exact (pymin_conf_bounds t).2

/-- C7: for ML confidence in [0,1] every returned confidence lies in [0,1]
(for arbitrary tally and evidence flag, and for every concrete evidence
list), and on the evidence-majority rules 1 and 2 (evidence present with an
unequal tally) the confidence never exceeds 0.95. -/
theorem c7_confidence_bounds (p : String) (c : ℚ) (f t : Nat) (he : Bool)
    (h0 : 0 ≤ c) (h1 : c ≤ 1) :
    (0 ≤ (synthesizeCore p c f t he).confidence ∧
      (synthesizeCore p c f t he).confidence ≤ 1) ∧
    (he = true → f ≠ t → (synthesizeCore p c f t he).confidence ≤ 0.95) ∧
    (∀ L : List FactCheck,
      0 ≤ (synthesize p c L).confidence ∧ (synthesize p c L).confidence ≤ 1) := by
  refine ⟨synthesizeCore_conf_mem p c f t he h0 h1, ?_, ?_⟩
  · intro hhe hne
    subst hhe
    exact synthesizeCore_conf_le95 p c hne
  · intro L
    exact synthesizeCore_conf_mem p c _ _ _ h0 h1

theorem c7_confidence_bounds_witness :
    (0 ≤ (synthesizeCore "FAKE" 0.9 1 0 true).confidence ∧
      (synthesizeCore "FAKE" 0.9 1 0 true).confidence ≤ 1) ∧
    (synthesizeCore "FAKE" 0.9 1 0 true).confidence ≤ 0.95 := by
  have h := c7_confidence_bounds "FAKE" 0.9 1 0 true (by norm_num) (by norm_num)
  exact ⟨h.1, h.2.1 rfl Nat.one_ne_zero⟩

/-- C8: on any failed retrieval outcome (non-200 response, timeout, or other
exception) `check_claims` yields the empty evidence list, the analysis still
succeeds, and its result is identical to analysing the same request with an
empty evidence list, so the ML-only rules decide the verdict. -/
theorem c8_retrieval_degrades_to_empty (key text : String)
    (outcome : RetrievalOutcome) (ml : MLResult)
    (hfail : retrievalFailed outcome) :
    check_claims key text outcome = [] ∧
    analyze (.ok ml) key text outcome =
      analyze (.ok ml) key text (.response 200 (some [])) ∧
    ∃ res, analyze (.ok ml) key text outcome = Except.ok res := by
  have hck : check_claims key text outcome = [] := by
    cases outcome with
    | response status claims =>
        have hs : status ≠ 200 := hfail
        simp [check_claims, hs]
    | timeout => simp [check_claims]
    | failure m => simp [check_claims]
  have hck2 : check_claims key text (.response 200 (some [])) = [] := by
    simp [check_claims, parseFactChecks]
  refine ⟨hck, ?_, ⟨_, rfl⟩⟩
  simp only [analyze, hck, hck2]

theorem c8_retrieval_degrades_to_empty_witness :
    check_claims "k" "some text" .timeout = [] ∧
    analyze (.ok mlSample) "k" "some text" .timeout =
      analyze (.ok mlSample) "k" "some text" (.response 200 (some [])) := by
  have h := c8_retrieval_degrades_to_empty "k" "some text" .timeout mlSample trivial
  exact ⟨h.1, h.2.1⟩

/-- C9: when the classifier collaborator call `predict` raises, `analyze`
propagates a single error and never produces an `AnalysisResult`: the outcome
is exactly `Except.error` with the handler message, for every key, text and
retrieval outcome. -/
theorem c9_classifier_failure_fatal (e key text : String)
    (outcome : RetrievalOutcome) :
    analyze (.error e) key text outcome =
      .error ("Analysis failed: " ++ e) := rfl

/-- C10: with the API key unset (empty, since `os.getenv` defaults to `""`)
or equal to the placeholder, `check_claims` returns the empty list for every
retrieval outcome — the external API is never consulted — and the analysis
result is exactly the ML-only verdict of `mlRules` with an empty evidence
list. -/
theorem c10_unconfigured_key_ml_only (key text : String)
    (outcome : RetrievalOutcome) (ml : MLResult)
    (hkey : key = "" ∨ key = "your_api_key_here") :
    check_claims key text outcome = [] ∧
    analyze (.ok ml) key text outcome =
      .ok { verdict := (mlRules ml.prediction ml.confidence).verdict
            confidence := (mlRules ml.prediction ml.confidence).confidence
            ml_prediction := ml.prediction
            ml_confidence := ml.confidence
            fact_checks := []
            reasoning := (mlRules ml.prediction ml.confidence).reasoning } := by
  have hck : check_claims key text outcome = [] := by
    unfold check_claims
    rw [if_pos hkey]
  refine ⟨hck, ?_⟩
  simp only [analyze, hck]
  rfl

theorem c10_unconfigured_key_ml_only_witness :
    check_claims "your_api_key_here" "some text" richOutcome = [] ∧
    analyze (.ok mlSample) "your_api_key_here" "some text" richOutcome =
      .ok { verdict := (mlRules mlSample.prediction mlSample.confidence).verdict
            confidence := (mlRules mlSample.prediction mlSample.confidence).confidence
            ml_prediction := mlSample.prediction
            ml_confidence := mlSample.confidence
            fact_checks := []
            reasoning := (mlRules mlSample.prediction mlSample.confidence).reasoning } :=
  c10_unconfigured_key_ml_only "your_api_key_here" "some text" richOutcome
    mlSample (Or.inr rfl)
